import Mathlib

/-!
Shallow embedding of the PO2 test bench's ground-truth matching & scoring
engine, finding extraction, and curation state store, together with proofs
of the specified properties.

Python strings are modelled as Lean `String`s, but every primitive the code
uses (`str.strip`, `str.lower`, `str.upper`, slicing `[:n]`, the `in`
substring test, `int(...)` parsing) is re-implemented over the underlying
character list so that all definitions evaluate by kernel reduction.
-/

namespace PO2

/-! ## Python string primitives -/

/-- Python `str.lower()` (per-character lowercasing). -/
def pyLower (s : String) : String := ⟨s.data.map Char.toLower⟩

/-- Python `str.upper()` (per-character uppercasing). -/
def pyUpper (s : String) : String := ⟨s.data.map Char.toUpper⟩

/-- Strip leading and trailing whitespace from a character list. -/
def trimChars (l : List Char) : List Char :=
  ((l.dropWhile Char.isWhitespace).reverse.dropWhile Char.isWhitespace).reverse

/-- Python `str.strip()`. -/
def pyStrip (s : String) : String := ⟨trimChars s.data⟩

/-- Python slicing `s[:n]`. -/
def pyTake (s : String) (n : Nat) : String := ⟨s.data.take n⟩

/-- Whether `needle` starts the list `hay` (used for the substring test). -/
def leadsB : List Char → List Char → Bool
  | [], _ => true
  | _ :: _, [] => false
  | a :: as, b :: bs => a == b && leadsB as bs

/-- Whether `needle` occurs somewhere inside `hay` (Python `needle in hay`). -/
def subListB (needle : List Char) : List Char → Bool
  | [] => needle.isEmpty
  | c :: t => leadsB needle (c :: t) || subListB needle t

/-- Python substring test `needle in hay` on strings. -/
def pyIn (needle hay : String) : Bool := subListB needle.data hay.data

/-- Specification-level statement that `needle` occurs as a contiguous
substring of `hay`. -/
def occursIn (needle hay : List Char) : Prop :=
  ∃ pre suf, hay = pre ++ needle ++ suf

/-- Value of a non-empty all-digit character list, `none` otherwise. -/
def digitsVal : List Char → Option Nat
  | [] => none
  | cs =>
    if cs.all Char.isDigit then
      some (cs.foldl (fun a c => a * 10 + (c.toNat - 48)) 0)
    else none

/-- Python `int(s)` on a string: optional surrounding whitespace, optional
sign, then decimal digits; `none` when `int` would raise `ValueError`. -/
def pyParseInt (s : String) : Option Int :=
  match trimChars s.data with
  | '+' :: rest => (digitsVal rest).map Int.ofNat
  | '-' :: rest => (digitsVal rest).map (fun n => -(n : Int))
  | l => (digitsVal l).map Int.ofNat

/-! ## Page normalisation (`modules/ground_truth.py`)

A page value arriving from JSON / pandas is an int, a string, or a
missing value (`None` / `NaN`, both falsy under `pd.notna`). -/

/-- The possible shapes of a `page` value handed to the matcher. -/
inductive PageInput
  | pnum (n : Int)
  | pstr (s : String)
  | pnan
deriving DecidableEq, Repr

/-- Page normalisation shared by `is_ground_truth` (guard
`pd.notna(page) and str(page).strip()` plus `try/except`) and by the
per-finding loop of `calculate_gt_metrics` (guard `pd.notna(page)` with
`int(page)` inside `try/except`): missing, blank, and unparseable pages
all normalise to `0`. -/
def normalizePage : PageInput → Int
  | .pnan => 0
  | .pnum n => n
  | .pstr s => if pyStrip s = "" then 0 else (pyParseInt s).getD 0

/-! ## Ground-truth index and match predicate (`modules/ground_truth.py`) -/

/-- A ground-truth lookup key `(tc, page, sentence_prefix)` as produced by
`load_ground_truth`. -/
abbrev GTKey := String × Int × String

/-- The matcher `is_ground_truth(tc_number, page, sentence, gt_keys)`
(`ground_truth.py:34-58`): exact 50-character-prefix membership, then a
fallback scan where a ground-truth prefix contained in the candidate
sentence also matches. The key set is modelled as a list (membership is
all that is used). -/
def is_ground_truth (tc_number : String) (page : PageInput) (sentence : String)
    (gt_keys : List GTKey) : Bool :=
  if gt_keys = [] then false
  else
    let tc := pyStrip tc_number
    let pg := normalizePage page
    let sent := pyLower (pyStrip sentence)
    if (tc, pg, pyTake sent 50) ∈ gt_keys then true
    else gt_keys.any (fun k =>
      tc == k.1 && pg == k.2.1 && !(k.2.2 == "") && pyIn k.2.2 sent)

/-- The page conversion of the duplicated matcher in
`Silver_to_Gold_Curation.py:89` (`pg = int(page) if pd.notna(page) else 0`):
unlike the module copy there is no emptiness guard and no `try/except`, so
`int(page)` on an empty or non-numeric string raises an uncaught
`ValueError`, modelled as `none`. -/
def normalizePageSilver : PageInput → Option Int
  | .pnan => some 0
  | .pnum n => some n
  | .pstr s => pyParseInt s

/-- The duplicated matcher `is_ground_truth` of
`Silver_to_Gold_Curation.py:84-98`: same matching logic as the module
copy, but with the unguarded page conversion; `none` models the
`ValueError` propagating out of the call. -/
def is_ground_truth_silver (tc_number : String) (page : PageInput) (sentence : String)
    (gt_keys : List GTKey) : Option Bool :=
  if gt_keys = [] then some false
  else
    let tc := pyStrip tc_number
    match normalizePageSilver page with
    | none => none
    | some pg =>
      let sent := pyLower (pyStrip sentence)
      if (tc, pg, pyTake sent 50) ∈ gt_keys then some true
      else some (gt_keys.any (fun k =>
        tc == k.1 && pg == k.2.1 && !(k.2.2 == "") && pyIn k.2.2 sent))

/-- One row of the ground-truth table (`gt_df`), with the columns
`calculate_gt_metrics` reads. -/
structure GTRow where
  tcId : String
  page : PageInput
  category : String
  sentence : String
deriving DecidableEq, Repr

/-- One submitted finding, with the keys `calculate_gt_metrics` reads. -/
structure Finding where
  page : PageInput
  sentence : String
  category : String
deriving DecidableEq, Repr

/-- From `ground_truth.py:82`: the ground-truth rows of this test case. -/
def tcRows (gt_df : List GTRow) (tc_number : String) : List GTRow :=
  gt_df.filter (fun r => pyUpper (pyStrip r.tcId) == pyUpper tc_number)

/-- From `ground_truth.py:86-90`: the lowercased non-empty categories present in
this test case's ground-truth rows (`valid_themes`; a Python set, modelled
as a list used only through membership). -/
def validThemes (gt_df : List GTRow) (tc_number : String) : List String :=
  (tcRows gt_df tc_number).filterMap (fun r =>
    let category := pyStrip r.category
    if category = "" then none else some (pyLower category))

/-- The classification of one finding inside the loop of
`calculate_gt_metrics` (`ground_truth.py:109-146`): the finding together
with its `gt_status` and `match_type`. -/
def classifyEntry (valid_themes : List String) (gt_keys : List GTKey)
    (tc_number : String) (f : Finding) : Finding × String × String :=
  let page := normalizePage f.page
  let sentence := pyStrip f.sentence
  let category := pyLower (pyStrip f.category)
  if category ∈ valid_themes then
    if is_ground_truth tc_number (.pnum page) sentence gt_keys then
      (f, "TP", "Exact match")
    else
      (f, "FP", "Not in GT")
  else
    (f, "Suppressed", "Category not in GT")

/-- The dictionary returned by `calculate_gt_metrics`. -/
structure GTMetrics where
  tp : Nat
  fp : Nat
  fn : Int
  suppressed : Nat
  expected : Nat
  found : Nat
  relevant_found : Nat
  precision : ℚ
  recall_val : ℚ
  f1 : ℚ
  detailed_findings : List (Finding × String × String)

/-- The scorer `calculate_gt_metrics(findings_list, gt_keys, gt_df, tc_number)`
(`ground_truth.py:61-170`). The source accumulates `tp`/`fp`/`suppressed`
and `detailed_findings` in a single loop whose body depends only on the
current finding; that loop is rendered as a map followed by counts of the
produced labels, which yields the identical result. (The `gt_theme_map`
built at lines 92-101 is dead code: nothing in the returned value reads
it, so it is not modelled.) -/
def calculate_gt_metrics (findings_list : List Finding) (gt_keys : List GTKey)
    (gt_df : List GTRow) (tc_number : String) : GTMetrics :=
  let expected_count := (tcRows gt_df tc_number).length
  let valid_themes := validThemes gt_df tc_number
  let detailed := findings_list.map (classifyEntry valid_themes gt_keys tc_number)
  let tp := detailed.countP (fun d => d.2.1 == "TP")
  let fp := detailed.countP (fun d => d.2.1 == "FP")
  let suppressed := detailed.countP (fun d => d.2.1 == "Suppressed")
  let fn : Int := (expected_count : Int) - (tp : Int)
  let total_found := findings_list.length
  let total_relevant := tp + fp
  let precision : ℚ := if total_relevant > 0 then (tp : ℚ) / (total_relevant : ℚ) else 0
  let recall_val : ℚ := if expected_count > 0 then (tp : ℚ) / (expected_count : ℚ) else 0
  let f1 : ℚ :=
    if precision + recall_val > 0 then 2 * (precision * recall_val) / (precision + recall_val) else 0
  { tp := tp, fp := fp, fn := fn, suppressed := suppressed,
    expected := expected_count, found := total_found,
    relevant_found := total_relevant,
    precision := precision, recall_val := recall_val, f1 := f1,
    detailed_findings := detailed }

/-! ## Finding extraction (`modules/parsers.py`) -/

/-- A section object of one artifact bucket, with the keys
`extract_findings_for_review` reads; `none` models an absent key. -/
structure SectionObj where
  sentence : Option String := none
  page_number : Option String := none
  rule_citation : Option String := none
  recommendations : Option String := none
  category : Option String := none
  observations : Option String := none
  summary : Option String := none
  accept : Option Bool := none
  accept_with_changes : Option Bool := none
  reject : Option Bool := none
  reject_reason : Option String := none
deriving DecidableEq, Repr

/-- The value found under one artifact-bucket name in the source mapping:
absent (`data.get` then yields `{}`), present but not a dict, or a dict
whose `"sections"` key may itself be absent. -/
inductive BucketVal
  | missing
  | nonDict
  | dict (sections : Option (List SectionObj))
deriving DecidableEq, Repr

/-- The list `ARTIFACT_TYPES` (`modules/config.py`). -/
def ARTIFACT_TYPES : List String :=
  ["misleading_artifact", "performance_artifact", "disclosure_artifact",
   "testimonial_artifact", "digital_artifact", "comparison_artifact",
   "ranking_artifact", "thirdparty_artifact", "editorial_artifact",
   "typo_artifact"]

/-- One output row of `extract_findings_for_review`. -/
structure ReviewRow where
  doc_id_m : String
  source_m : String
  art_key_m : String
  section_idx_m : Nat
  artifact_type : String
  sentence : String
  page : String
  rule_citation : String
  recommendations : String
  category : String
  observations : String
  summary : String
  accept : Bool
  accept_with_changes : Bool
  reject : Bool
  reject_reason : String
deriving DecidableEq, Repr

/-- Remove a trailing `suf` from `s` when present. `parsers.py:64` uses
`art_key.replace("_artifact", "")`; every member of `ARTIFACT_TYPES`
contains `"_artifact"` exactly once, as a suffix, so on the keys actually
passed the replacement coincides with suffix removal. -/
def dropEnd (s suf : String) : String :=
  if suf.data.length ≤ s.data.length
      ∧ leadsB suf.data (s.data.drop (s.data.length - suf.data.length)) then
    ⟨s.data.take (s.data.length - suf.data.length)⟩
  else s

/-- The row built for section `s` at index `idx` of bucket `artKey`
(`parsers.py:59-76`), with the source's per-field defaults. -/
def mkReviewRow (doc_id source_key art_key : String) (idx : Nat)
    (s : SectionObj) : ReviewRow :=
  { doc_id_m := doc_id
    source_m := source_key
    art_key_m := art_key
    section_idx_m := idx
    artifact_type := dropEnd art_key "_artifact"
    sentence := s.sentence.getD ""
    page := s.page_number.getD ""
    rule_citation := s.rule_citation.getD ""
    recommendations := s.recommendations.getD ""
    category := s.category.getD "N/A"
    observations := s.observations.getD ""
    summary := s.summary.getD ""
    accept := s.accept.getD false
    accept_with_changes := s.accept_with_changes.getD false
    reject := s.reject.getD false
    reject_reason := s.reject_reason.getD "" }

/-- The extractor `extract_findings_for_review(doc_id, data, source_key)`
(`parsers.py:42-77`): iterate `ARTIFACT_TYPES` in order; `continue` on a
non-dict bucket value; an absent bucket (`data.get(art_key, {})`) or an
absent `"sections"` key yields no rows; enumerate each bucket's sections. -/
def extract_findings_for_review (doc_id : String) (data : String → BucketVal)
    (source_key : String) : List ReviewRow :=
  ARTIFACT_TYPES.flatMap (fun art_key =>
    match data art_key with
    | .nonDict => []
    | .missing => []
    | .dict none => []
    | .dict (some sections) =>
        sections.enum.map (fun p => mkReviewRow doc_id source_key art_key p.1 p.2))

/-! ## Curation state store (`modules/db.py`) -/

/-- A finding's identity tuple `(doc_id, source, art_key, section_idx)`. -/
abbrev FindingKey := String × String × String × Nat

/-- One tombstone document of the `golden_deletions` collection. Times are
modelled as natural numbers. -/
structure DeletionRec where
  doc_id : String
  source : String
  art_key : String
  section_idx : Nat
  category : String
  sub_bucket : String
  sentence_preview : String
  deleted_at : Nat
deriving DecidableEq, Repr

/-- The identity tuple of a tombstone. -/
def delKey (d : DeletionRec) : FindingKey :=
  (d.doc_id, d.source, d.art_key, d.section_idx)

/-- Mongo `update_one(filter, {"$set": ...}, upsert=True)` over an ordered
collection: rewrite the first matching document, or append a fresh one. -/
def updateOneUpsert (p : α → Bool) (upd : α → α) (ins : α) : List α → List α
  | [] => [ins]
  | x :: t => if p x then upd x :: t else x :: updateOneUpsert p upd ins t

/-- Mongo `delete_one(filter)`: remove the first matching document. -/
def deleteOne (p : α → Bool) : List α → List α
  | [] => []
  | x :: t => if p x then t else x :: deleteOne p t

/-- From `db.py:127-149`, `soft_delete_finding`: upsert a tombstone keyed by
the identity tuple; the `$set` document assigns every field, so an
existing tombstone is wholly rewritten. -/
def soft_delete_finding (store : List DeletionRec)
    (doc_id source art_key : String) (section_idx : Nat)
    (category sub_bucket sentence : String) (now : Nat) : List DeletionRec :=
  let doc : DeletionRec :=
    { doc_id := doc_id, source := source, art_key := art_key,
      section_idx := section_idx, category := category,
      sub_bucket := sub_bucket,
      sentence_preview := pyTake sentence 120,
      deleted_at := now }
  updateOneUpsert (fun d => delKey d == (doc_id, source, art_key, section_idx))
    (fun _ => doc) doc store

/-- From `db.py:165-173`, `undo_soft_delete`: `delete_one` on the identity. -/
def undo_soft_delete (store : List DeletionRec)
    (doc_id source art_key : String) (section_idx : Nat) : List DeletionRec :=
  deleteOne (fun d => delKey d == (doc_id, source, art_key, section_idx)) store

/-- From `db.py:176-182`, `load_deletion_keys`: the identity tuples of all
tombstones (a Python set, modelled as a list used through membership). -/
def load_deletion_keys (store : List DeletionRec) : List FindingKey :=
  store.map delKey

/-- One document of the `golden_category_status` collection. -/
structure StatusDoc where
  category : String
  status : String
  locked_at : Option Nat
  unlocked_at : Option Nat
  findings_before : Int
  findings_after : Int
  deletions : Int
deriving DecidableEq, Repr

/-- From `db.py:193-207`, `lock_category`: upsert by category; the `$set`
assigns category, status, `locked_at`, both counts, and
`deletions = findings_before - findings_after` (any `unlocked_at` already
on the document is untouched). -/
def lock_category (store : List StatusDoc) (category : String)
    (findings_before findings_after : Int) (now : Nat) : List StatusDoc :=
  updateOneUpsert (fun d => d.category == category)
    (fun d => { d with
      category := category, status := "locked", locked_at := some now,
      findings_before := findings_before, findings_after := findings_after,
      deletions := findings_before - findings_after })
    { category := category, status := "locked", locked_at := some now,
      unlocked_at := none,
      findings_before := findings_before, findings_after := findings_after,
      deletions := findings_before - findings_after }
    store

/-- Mongo `update_one(filter, {"$set": ...})` without upsert: rewrite the
first matching document, or do nothing. -/
def updateOneNoUpsert (p : α → Bool) (upd : α → α) : List α → List α
  | [] => []
  | x :: t => if p x then upd x :: t else x :: updateOneNoUpsert p upd t

/-- From `db.py:210-217`, `unlock_category`: `update_one` without upsert; the
`$set` assigns only `status` and `unlocked_at`. -/
def unlock_category (store : List StatusDoc) (category : String)
    (now : Nat) : List StatusDoc :=
  updateOneNoUpsert (fun d => d.category == category)
    (fun d => { d with status := "unlocked", unlocked_at := some now }) store

/-- From `db.py:219-222`, `get_category_statuses` builds
`{d["category"]: d for d in coll.find()}`: for a repeated category the
later document overwrites the earlier, so lookup returns the last
matching document. -/
def get_category_statuses (store : List StatusDoc) (category : String) :
    Option StatusDoc :=
  match store with
  | [] => none
  | d :: t =>
      match get_category_statuses t category with
      | some r => some r
      | none => if d.category == category then some d else none

/-! ## Golden CSV export pipeline (`Silver_to_Gold_Curation.py`) -/

/-- One row of the curation DataFrame `df`, with the columns the
soft-delete mask, the typography filter, and the locked-category filter
read. -/
structure CurRow where
  doc_id_m : String
  source_m : String
  art_key_m : String
  section_idx_m : Nat
  category : String
  run_label : String
  artifact_type : String
deriving DecidableEq, Repr

/-- The identity tuple of a curation row. -/
def curKey (r : CurRow) : FindingKey :=
  (r.doc_id_m, r.source_m, r.art_key_m, r.section_idx_m)

/-- Case-insensitive `str.contains("sec_typographycheck", case=False)`. -/
def hitsTypo (s : String) : Bool := pyIn "sec_typographycheck" (pyLower s)

/-- The category keys of `get_category_statuses` whose status document says
`"locked"` (`Silver_to_Gold_Curation.py:340`): dict keys in first-insertion
order, each resolved last-write-wins. -/
def lockedCats (statuses : List StatusDoc) : List String :=
  ((statuses.map (fun d => d.category)).eraseDups).filter (fun c =>
    match get_category_statuses statuses c with
    | some d => d.status == "locked"
    | none => false)

/-- The golden CSV export rows (`Silver_to_Gold_Curation.py:274-282` and
`337-353`): apply the soft-delete mask when the deletion-key set is
non-empty, drop `sec_typographycheck` rows, and keep only rows of locked
categories; with no locked category no CSV is offered at all. Column
selection (`export_cols`) does not change which findings are exported and
is not modelled. -/
def goldenExportRows (rows : List CurRow) (deletion_keys : List FindingKey)
    (statuses : List StatusDoc) : List CurRow :=
  let afterDel :=
    if deletion_keys = [] then rows
    else rows.filter (fun r => !(curKey r ∈ deletion_keys))
  let afterTypo := afterDel.filter (fun r =>
    !(hitsTypo r.source_m) && !(hitsTypo r.run_label) && !(hitsTypo r.artifact_type))
  let locked_cats := lockedCats statuses
  if locked_cats = [] then []
  else afterTypo.filter (fun r => r.category ∈ locked_cats)

/-! ## Concrete inputs used by witnesses and counterexamples -/

/-- A ground-truth row for test case TC01. -/
def exGTRow : GTRow :=
  { tcId := "TC01", page := .pnum 1, category := "Misleading",
    sentence := "Guaranteed returns" }

/-- A one-row ground-truth table. -/
def exDf : List GTRow := [exGTRow]

/-- The key set `load_ground_truth` would build from `exDf`. -/
def exKeys : List GTKey := [("TC01", 1, "guaranteed returns")]

/-- A finding that matches `exGTRow` exactly, in a graded category. -/
def exFinding : Finding :=
  { page := .pnum 1, sentence := "Guaranteed returns", category := "Misleading" }

/-- Two copies of the same matching finding (duplicate-match input). -/
def exFindings2 : List Finding := [exFinding, exFinding]

/-- A finding whose sentence prefix matches `exGTRow` at the same test case
and page but whose category is outside the test case's graded set. -/
def exTypoFinding : Finding :=
  { page := .pnum 1, sentence := "Guaranteed returns", category := "Typo" }

/-- A bucket mapping with one known bucket holding a single field-free
section. -/
def exData : String → BucketVal := fun k =>
  if k = "misleading_artifact" then BucketVal.dict (some [{}]) else BucketVal.missing

/-- The sections of a bucket value that actually yield rows. -/
def bucketSections : BucketVal → List SectionObj
  | .nonDict => []
  | .missing => []
  | .dict none => []
  | .dict (some sections) => sections

/-- A locked status document. -/
def exStatusDoc : StatusDoc :=
  { category := "Misleading", status := "locked", locked_at := some 0,
    unlocked_at := none, findings_before := 3, findings_after := 2,
    deletions := 1 }

/-- A curation row in the locked category. -/
def exCurRow : CurRow :=
  { doc_id_m := "d1", source_m := "raw_output", art_key_m := "misleading_artifact",
    section_idx_m := 0, category := "Misleading", run_label := "golden_v1",
    artifact_type := "misleading" }

/-! ## Unfolding lemmas for `calculate_gt_metrics` -/

theorem gtm_detailed (fl : List Finding) (gk : List GTKey) (gdf : List GTRow) (tc : String) :
    (calculate_gt_metrics fl gk gdf tc).detailed_findings
      = fl.map (classifyEntry (validThemes gdf tc) gk tc) := rfl

theorem gtm_tp (fl : List Finding) (gk : List GTKey) (gdf : List GTRow) (tc : String) :
    (calculate_gt_metrics fl gk gdf tc).tp
      = (fl.map (classifyEntry (validThemes gdf tc) gk tc)).countP
          (fun d => d.2.1 == "TP") := rfl

theorem gtm_fp (fl : List Finding) (gk : List GTKey) (gdf : List GTRow) (tc : String) :
    (calculate_gt_metrics fl gk gdf tc).fp
      = (fl.map (classifyEntry (validThemes gdf tc) gk tc)).countP
          (fun d => d.2.1 == "FP") := rfl

theorem gtm_suppressed (fl : List Finding) (gk : List GTKey) (gdf : List GTRow) (tc : String) :
    (calculate_gt_metrics fl gk gdf tc).suppressed
      = (fl.map (classifyEntry (validThemes gdf tc) gk tc)).countP
          (fun d => d.2.1 == "Suppressed") := rfl

theorem gtm_expected (fl : List Finding) (gk : List GTKey) (gdf : List GTRow) (tc : String) :
    (calculate_gt_metrics fl gk gdf tc).expected = (tcRows gdf tc).length := rfl

theorem gtm_found (fl : List Finding) (gk : List GTKey) (gdf : List GTRow) (tc : String) :
    (calculate_gt_metrics fl gk gdf tc).found = fl.length := rfl

theorem gtm_relevant (fl : List Finding) (gk : List GTKey) (gdf : List GTRow) (tc : String) :
    (calculate_gt_metrics fl gk gdf tc).relevant_found
      = (calculate_gt_metrics fl gk gdf tc).tp + (calculate_gt_metrics fl gk gdf tc).fp := rfl

theorem gtm_fn (fl : List Finding) (gk : List GTKey) (gdf : List GTRow) (tc : String) :
    (calculate_gt_metrics fl gk gdf tc).fn
      = ((calculate_gt_metrics fl gk gdf tc).expected : Int)
        - ((calculate_gt_metrics fl gk gdf tc).tp : Int) := rfl

theorem gtm_precision (fl : List Finding) (gk : List GTKey) (gdf : List GTRow) (tc : String) :
    (calculate_gt_metrics fl gk gdf tc).precision
      = if (calculate_gt_metrics fl gk gdf tc).relevant_found > 0 then
          ((calculate_gt_metrics fl gk gdf tc).tp : ℚ)
            / ((calculate_gt_metrics fl gk gdf tc).relevant_found : ℚ)
        else 0 := rfl

theorem gtm_recall (fl : List Finding) (gk : List GTKey) (gdf : List GTRow) (tc : String) :
    (calculate_gt_metrics fl gk gdf tc).recall_val
      = if (calculate_gt_metrics fl gk gdf tc).expected > 0 then
          ((calculate_gt_metrics fl gk gdf tc).tp : ℚ)
            / ((calculate_gt_metrics fl gk gdf tc).expected : ℚ)
        else 0 := rfl

theorem gtm_f1 (fl : List Finding) (gk : List GTKey) (gdf : List GTRow) (tc : String) :
    (calculate_gt_metrics fl gk gdf tc).f1
      = if (calculate_gt_metrics fl gk gdf tc).precision
            + (calculate_gt_metrics fl gk gdf tc).recall_val > 0 then
          2 * ((calculate_gt_metrics fl gk gdf tc).precision
                * (calculate_gt_metrics fl gk gdf tc).recall_val)
            / ((calculate_gt_metrics fl gk gdf tc).precision
                + (calculate_gt_metrics fl gk gdf tc).recall_val)
        else 0 := rfl

theorem precision_nonneg (fl : List Finding) (gk : List GTKey) (gdf : List GTRow)
    (tc : String) : 0 ≤ (calculate_gt_metrics fl gk gdf tc).precision := by
  rw [gtm_precision]
  split
  · exact div_nonneg (Nat.cast_nonneg _) (Nat.cast_nonneg _)
  · exact le_refl 0

theorem recall_nonneg (fl : List Finding) (gk : List GTKey) (gdf : List GTRow)
    (tc : String) : 0 ≤ (calculate_gt_metrics fl gk gdf tc).recall_val := by
  rw [gtm_recall]
  split
  · exact div_nonneg (Nat.cast_nonneg _) (Nat.cast_nonneg _)
  · exact le_refl 0

/-! ## C3 -/

/-- C3: `relevant_found = tp + fp`; `precision = tp / relevant_found` and
`0` when `relevant_found` is `0`; `recall = tp / expected` and `0` when
`expected` is `0`; `f1 = 2·P·R/(P+R)` and `0` when `P+R` is `0`; an empty
findings list yields all-zero metrics, and zero ground-truth rows force
`recall = 0`; in every case `calculate_gt_metrics` returns a value (no
error). -/
theorem C3_metric_formulas (fl : List Finding) (gk : List GTKey) (gdf : List GTRow)
    (tc : String) :
    (calculate_gt_metrics fl gk gdf tc).relevant_found
        = (calculate_gt_metrics fl gk gdf tc).tp + (calculate_gt_metrics fl gk gdf tc).fp
    ∧ ((calculate_gt_metrics fl gk gdf tc).relevant_found = 0 →
        (calculate_gt_metrics fl gk gdf tc).precision = 0)
    ∧ ((calculate_gt_metrics fl gk gdf tc).relevant_found ≠ 0 →
        (calculate_gt_metrics fl gk gdf tc).precision
          = ((calculate_gt_metrics fl gk gdf tc).tp : ℚ)
              / ((calculate_gt_metrics fl gk gdf tc).relevant_found : ℚ))
    ∧ ((calculate_gt_metrics fl gk gdf tc).expected = 0 →
        (calculate_gt_metrics fl gk gdf tc).recall_val = 0)
    ∧ ((calculate_gt_metrics fl gk gdf tc).expected ≠ 0 →
        (calculate_gt_metrics fl gk gdf tc).recall_val
          = ((calculate_gt_metrics fl gk gdf tc).tp : ℚ)
              / ((calculate_gt_metrics fl gk gdf tc).expected : ℚ))
    ∧ ((calculate_gt_metrics fl gk gdf tc).precision
          + (calculate_gt_metrics fl gk gdf tc).recall_val = 0 →
        (calculate_gt_metrics fl gk gdf tc).f1 = 0)
    ∧ ((calculate_gt_metrics fl gk gdf tc).precision
          + (calculate_gt_metrics fl gk gdf tc).recall_val ≠ 0 →
        (calculate_gt_metrics fl gk gdf tc).f1
          = 2 * ((calculate_gt_metrics fl gk gdf tc).precision
                  * (calculate_gt_metrics fl gk gdf tc).recall_val)
              / ((calculate_gt_metrics fl gk gdf tc).precision
                  + (calculate_gt_metrics fl gk gdf tc).recall_val))
    ∧ (fl = [] →
        (calculate_gt_metrics fl gk gdf tc).tp = 0
        ∧ (calculate_gt_metrics fl gk gdf tc).fp = 0
        ∧ (calculate_gt_metrics fl gk gdf tc).suppressed = 0
        ∧ (calculate_gt_metrics fl gk gdf tc).found = 0
        ∧ (calculate_gt_metrics fl gk gdf tc).relevant_found = 0
        ∧ (calculate_gt_metrics fl gk gdf tc).precision = 0
        ∧ (calculate_gt_metrics fl gk gdf tc).recall_val = 0
        ∧ (calculate_gt_metrics fl gk gdf tc).f1 = 0) := by
  refine ⟨gtm_relevant fl gk gdf tc, ?_, ?_, ?_, ?_, ?_, ?_, ?_⟩
  · intro h
    rw [gtm_precision, h]
    simp
  · intro h
    rw [gtm_precision, if_pos (Nat.pos_of_ne_zero h)]
  · intro h
    rw [gtm_recall, h]
    simp
  · intro h
    rw [gtm_recall, if_pos (Nat.pos_of_ne_zero h)]
  · intro h
    rw [gtm_f1, h]
    simp
  · intro h
    have hpos : 0 < (calculate_gt_metrics fl gk gdf tc).precision
        + (calculate_gt_metrics fl gk gdf tc).recall_val := by
      rcases lt_or_eq_of_le (add_nonneg (precision_nonneg fl gk gdf tc)
        (recall_nonneg fl gk gdf tc)) with h' | h'
      · exact h'
      · exact absurd h'.symm h
    rw [gtm_f1, if_pos hpos]
  · rintro rfl
    have htp : (calculate_gt_metrics ([] : List Finding) gk gdf tc).tp = 0 := rfl
    have hfp : (calculate_gt_metrics ([] : List Finding) gk gdf tc).fp = 0 := rfl
    have hsu : (calculate_gt_metrics ([] : List Finding) gk gdf tc).suppressed = 0 := rfl
    have hfo : (calculate_gt_metrics ([] : List Finding) gk gdf tc).found = 0 := rfl
    have hrel : (calculate_gt_metrics ([] : List Finding) gk gdf tc).relevant_found = 0 := by
      rw [gtm_relevant, htp, hfp]
    have hp : (calculate_gt_metrics ([] : List Finding) gk gdf tc).precision = 0 := by
      rw [gtm_precision, hrel, htp]
      simp
    have hr : (calculate_gt_metrics ([] : List Finding) gk gdf tc).recall_val = 0 := by
      rw [gtm_recall, htp]
      split <;> simp
    have hf : (calculate_gt_metrics ([] : List Finding) gk gdf tc).f1 = 0 := by
      rw [gtm_f1, hp, hr]
      simp
    exact ⟨htp, hfp, hsu, hfo, hrel, hp, hr, hf⟩

/-- Witness for C3 at a concrete input, discharging each hypothesis. -/
theorem C3_metric_formulas_witness :
    (calculate_gt_metrics exFindings2 exKeys exDf "TC01").relevant_found ≠ 0
    ∧ (calculate_gt_metrics exFindings2 exKeys exDf "TC01").precision
        = ((calculate_gt_metrics exFindings2 exKeys exDf "TC01").tp : ℚ)
            / ((calculate_gt_metrics exFindings2 exKeys exDf "TC01").relevant_found : ℚ) := by
  refine ⟨by decide, ?_⟩
  exact (C3_metric_formulas exFindings2 exKeys exDf "TC01").2.2.1 (by decide)

/-! ## C4 -/

/-- C4: `fn` is exactly the count delta `expected − tp`, with no capping of
`tp` at `expected`: universally `fn = expected − tp` over the integers,
and on a duplicate-match input (two findings matching the single
ground-truth row) the delta goes negative, to `-1`. -/
theorem C4_fn_delta :
    (∀ (fl : List Finding) (gk : List GTKey) (gdf : List GTRow) (tc : String),
      (calculate_gt_metrics fl gk gdf tc).fn
        = ((calculate_gt_metrics fl gk gdf tc).expected : Int)
          - ((calculate_gt_metrics fl gk gdf tc).tp : Int))
    ∧ (calculate_gt_metrics exFindings2 exKeys exDf "TC01").expected = 1
    ∧ (calculate_gt_metrics exFindings2 exKeys exDf "TC01").tp = 2
    ∧ (calculate_gt_metrics exFindings2 exKeys exDf "TC01").fn = -1 := by
  exact ⟨gtm_fn, by decide, by decide, by decide⟩

/-! ## C5 -/

/-- The guarded matcher of `modules/ground_truth.py` really is total: its
normalisation sends every missing value, blank string, and non-numeric
string to `0`, and `is_ground_truth` reads the page only through it. -/
theorem guarded_page_normalisation_total :
    normalizePage .pnan = 0
    ∧ (∀ s : String, pyStrip s = "" → normalizePage (.pstr s) = 0)
    ∧ (∀ s : String, pyParseInt s = none → normalizePage (.pstr s) = 0)
    ∧ (∀ (tc : String) (p : PageInput) (s : String) (keys : List GTKey),
        is_ground_truth tc p s keys
          = is_ground_truth tc (.pnum (normalizePage p)) s keys) := by
  refine ⟨rfl, ?_, ?_, ?_⟩
  · intro s h
    simp [normalizePage, h]
  · intro s h
    simp [normalizePage, h]
  · intro tc p s keys
    rfl

/-- C5: the claim's totality holds for the `modules/ground_truth.py`
matcher, which normalises empty and non-numeric string pages to `0` and
returns a boolean — but the duplicated matcher of
`Silver_to_Gold_Curation.py:84-98` converts the page with
`int(page) if pd.notna(page) else 0` (line 89), with no emptiness guard
and no `try/except`: on an empty or non-numeric string page (reachable,
since `extract_findings_for_review` defaults `page` to `""` and line
269-272 applies this matcher to every extracted row) it raises an uncaught
`ValueError` — here `none` — instead of returning a boolean. -/
theorem C5_page_normalisation_bug :
    normalizePage (.pstr "") = 0
    ∧ normalizePage (.pstr "n/a") = 0
    ∧ is_ground_truth "TC01" (.pstr "") "Guaranteed returns" exKeys = false
    ∧ is_ground_truth "TC01" (.pstr "n/a") "Guaranteed returns" exKeys = false
    ∧ exKeys ≠ []
    ∧ normalizePageSilver (.pstr "") = none
    ∧ normalizePageSilver (.pstr "n/a") = none
    ∧ is_ground_truth_silver "TC01" (.pstr "") "Guaranteed returns" exKeys = none
    ∧ is_ground_truth_silver "TC01" (.pstr "n/a") "Guaranteed returns" exKeys = none
    ∧ is_ground_truth_silver "TC01" .pnan "Guaranteed returns" exKeys
        = some (is_ground_truth "TC01" .pnan "Guaranteed returns" exKeys) :=
  ⟨by decide, by decide, by decide, by decide, by decide,
   by decide, by decide, by decide, by decide, by decide⟩

/-! ## Classification helper lemmas -/

theorem classify_fst (vt : List String) (gk : List GTKey) (tc : String) (f : Finding) :
    (classifyEntry vt gk tc f).1 = f := by
  simp only [classifyEntry]
  split_ifs <;> rfl

theorem classify_status (vt : List String) (gk : List GTKey) (tc : String) (f : Finding) :
    (classifyEntry vt gk tc f).2.1 = "TP" ∨ (classifyEntry vt gk tc f).2.1 = "FP"
      ∨ (classifyEntry vt gk tc f).2.1 = "Suppressed" := by
  simp only [classifyEntry]
  split_ifs <;> simp

theorem classify_invalid (vt : List String) (gk : List GTKey) (tc : String) (f : Finding)
    (h : pyLower (pyStrip f.category) ∉ vt) :
    classifyEntry vt gk tc f = (f, "Suppressed", "Category not in GT") := by
  simp only [classifyEntry]
  rw [if_neg h]

theorem countP_status_partition (l : List (Finding × String × String))
    (h : ∀ d ∈ l, d.2.1 = "TP" ∨ d.2.1 = "FP" ∨ d.2.1 = "Suppressed") :
    l.countP (fun d => d.2.1 == "TP") + l.countP (fun d => d.2.1 == "FP")
      + l.countP (fun d => d.2.1 == "Suppressed") = l.length := by
  induction l with
  | nil => rfl
  | cons x t ih =>
    have hx := h x (List.mem_cons_self x t)
    have ht := ih (fun d hd => h d (List.mem_cons_of_mem x hd))
    simp only [List.countP_cons, List.length_cons]
    rcases hx with h1 | h1 | h1 <;> simp [h1] <;> omega

/-! ## C10 -/

/-- C10: `detailed_findings` has exactly one entry per input finding, in
input order (its first components are the input list); every entry's
`gt_status` is one of `TP`, `FP`, `Suppressed`; the returned `tp`, `fp`,
`suppressed` are the counts of the corresponding labels; and
`tp + fp + suppressed = found`, the length of the input list. -/
theorem C10_detailed_partition (fl : List Finding) (gk : List GTKey) (gdf : List GTRow)
    (tc : String) :
    (calculate_gt_metrics fl gk gdf tc).detailed_findings.map (fun d => d.1) = fl
    ∧ (calculate_gt_metrics fl gk gdf tc).found = fl.length
    ∧ (∀ d ∈ (calculate_gt_metrics fl gk gdf tc).detailed_findings,
        d.2.1 = "TP" ∨ d.2.1 = "FP" ∨ d.2.1 = "Suppressed")
    ∧ (calculate_gt_metrics fl gk gdf tc).tp
        = (calculate_gt_metrics fl gk gdf tc).detailed_findings.countP
            (fun d => d.2.1 == "TP")
    ∧ (calculate_gt_metrics fl gk gdf tc).fp
        = (calculate_gt_metrics fl gk gdf tc).detailed_findings.countP
            (fun d => d.2.1 == "FP")
    ∧ (calculate_gt_metrics fl gk gdf tc).suppressed
        = (calculate_gt_metrics fl gk gdf tc).detailed_findings.countP
            (fun d => d.2.1 == "Suppressed")
    ∧ (calculate_gt_metrics fl gk gdf tc).tp + (calculate_gt_metrics fl gk gdf tc).fp
        + (calculate_gt_metrics fl gk gdf tc).suppressed
        = (calculate_gt_metrics fl gk gdf tc).found := by
  have hmem : ∀ d ∈ (calculate_gt_metrics fl gk gdf tc).detailed_findings,
      d.2.1 = "TP" ∨ d.2.1 = "FP" ∨ d.2.1 = "Suppressed" := by
    intro d hd
    rw [gtm_detailed] at hd
    obtain ⟨f, _, rfl⟩ := List.mem_map.mp hd
    exact classify_status _ gk tc f
  refine ⟨?_, gtm_found fl gk gdf tc, hmem, rfl, rfl, rfl, ?_⟩
  · rw [gtm_detailed, List.map_map]
    have : ∀ f ∈ fl, ((fun d : Finding × String × String => d.1)
        ∘ classifyEntry (validThemes gdf tc) gk tc) f = f :=
      fun f _ => classify_fst _ gk tc f
    rw [List.map_congr_left this]
    exact List.map_id' fl
  · rw [gtm_tp, gtm_fp, gtm_suppressed, gtm_found]
    have := countP_status_partition
      (fl.map (classifyEntry (validThemes gdf tc) gk tc))
      (by rw [← gtm_detailed fl gk gdf tc]; exact hmem)
    rw [this, List.length_map]

/-- Witness for C10 at a concrete input. -/
theorem C10_detailed_partition_witness :
    (calculate_gt_metrics exFindings2 exKeys exDf "TC01").detailed_findings.map
        (fun d => d.1) = exFindings2
    ∧ (calculate_gt_metrics exFindings2 exKeys exDf "TC01").tp
        + (calculate_gt_metrics exFindings2 exKeys exDf "TC01").fp
        + (calculate_gt_metrics exFindings2 exKeys exDf "TC01").suppressed
        = (calculate_gt_metrics exFindings2 exKeys exDf "TC01").found :=
  ⟨(C10_detailed_partition exFindings2 exKeys exDf "TC01").1,
   (C10_detailed_partition exFindings2 exKeys exDf "TC01").2.2.2.2.2.2⟩

/-! ## C1 -/

theorem countP_classify_filter (vt : List String) (gk : List GTKey) (tc : String)
    (p : Finding × String × String → Bool)
    (hp : ∀ f : Finding, pyLower (pyStrip f.category) ∉ vt →
      p (classifyEntry vt gk tc f) = false)
    (l : List Finding) :
    ((l.filter (fun f => decide (pyLower (pyStrip f.category) ∈ vt))).map
        (classifyEntry vt gk tc)).countP p
      = (l.map (classifyEntry vt gk tc)).countP p := by
  induction l with
  | nil => rfl
  | cons f t ih =>
    by_cases h : pyLower (pyStrip f.category) ∈ vt
    · rw [List.filter_cons_of_pos (by simpa using h)]
      simp only [List.map_cons, List.countP_cons, ih]
    · rw [List.filter_cons_of_neg (by simpa using h)]
      rw [ih]
      simp only [List.map_cons, List.countP_cons, hp f h]
      simp

/-- C1: a finding whose lowercased, stripped category is not in the
test case's valid-category set is classified `Suppressed`, and suppressed
findings contribute to none of `tp`, `fp`, `fn`, nor to the denominators
`relevant_found` and `expected` (restricting the findings list to the
graded categories leaves all of these, and the derived ratios,
unchanged). -/
theorem C1_suppressed_excluded (fl : List Finding) (gk : List GTKey) (gdf : List GTRow)
    (tc : String) :
    (∀ d ∈ (calculate_gt_metrics fl gk gdf tc).detailed_findings,
        pyLower (pyStrip d.1.category) ∉ validThemes gdf tc → d.2.1 = "Suppressed")
    ∧ (let m := calculate_gt_metrics fl gk gdf tc
       let m' := calculate_gt_metrics
          (fl.filter (fun f => decide (pyLower (pyStrip f.category) ∈ validThemes gdf tc)))
          gk gdf tc
       m.tp = m'.tp ∧ m.fp = m'.fp ∧ m.fn = m'.fn ∧ m.expected = m'.expected
        ∧ m.relevant_found = m'.relevant_found ∧ m.precision = m'.precision
        ∧ m.recall_val = m'.recall_val ∧ m.f1 = m'.f1) := by
  constructor
  · intro d hd
    rw [gtm_detailed] at hd
    obtain ⟨f, _, rfl⟩ := List.mem_map.mp hd
    rw [classify_fst] at *
    intro hcat
    rw [classify_invalid _ gk tc f hcat]
  · have hTP : ∀ f : Finding, pyLower (pyStrip f.category) ∉ validThemes gdf tc →
        ((fun d : Finding × String × String => d.2.1 == "TP")
          (classifyEntry (validThemes gdf tc) gk tc f)) = false := by
      intro f h
      rw [classify_invalid _ gk tc f h]
      show (("Suppressed" : String) == "TP") = false
      decide
    have hFP : ∀ f : Finding, pyLower (pyStrip f.category) ∉ validThemes gdf tc →
        ((fun d : Finding × String × String => d.2.1 == "FP")
          (classifyEntry (validThemes gdf tc) gk tc f)) = false := by
      intro f h
      rw [classify_invalid _ gk tc f h]
      show (("Suppressed" : String) == "FP") = false
      decide
    have htp : (calculate_gt_metrics fl gk gdf tc).tp
        = (calculate_gt_metrics
            (fl.filter (fun f => decide (pyLower (pyStrip f.category) ∈ validThemes gdf tc)))
            gk gdf tc).tp := by
      rw [gtm_tp, gtm_tp]
      exact (countP_classify_filter _ gk tc _ hTP fl).symm
    have hfp : (calculate_gt_metrics fl gk gdf tc).fp
        = (calculate_gt_metrics
            (fl.filter (fun f => decide (pyLower (pyStrip f.category) ∈ validThemes gdf tc)))
            gk gdf tc).fp := by
      rw [gtm_fp, gtm_fp]
      exact (countP_classify_filter _ gk tc _ hFP fl).symm
    have hexp : (calculate_gt_metrics fl gk gdf tc).expected
        = (calculate_gt_metrics
            (fl.filter (fun f => decide (pyLower (pyStrip f.category) ∈ validThemes gdf tc)))
            gk gdf tc).expected := rfl
    have hrel : (calculate_gt_metrics fl gk gdf tc).relevant_found
        = (calculate_gt_metrics
            (fl.filter (fun f => decide (pyLower (pyStrip f.category) ∈ validThemes gdf tc)))
            gk gdf tc).relevant_found := by
      rw [gtm_relevant, gtm_relevant, htp, hfp]
    have hfn : (calculate_gt_metrics fl gk gdf tc).fn
        = (calculate_gt_metrics
            (fl.filter (fun f => decide (pyLower (pyStrip f.category) ∈ validThemes gdf tc)))
            gk gdf tc).fn := by
      rw [gtm_fn, gtm_fn, htp, hexp]
    have hprec : (calculate_gt_metrics fl gk gdf tc).precision
        = (calculate_gt_metrics
            (fl.filter (fun f => decide (pyLower (pyStrip f.category) ∈ validThemes gdf tc)))
            gk gdf tc).precision := by
      rw [gtm_precision, gtm_precision, htp, hrel]
    have hrec : (calculate_gt_metrics fl gk gdf tc).recall_val
        = (calculate_gt_metrics
            (fl.filter (fun f => decide (pyLower (pyStrip f.category) ∈ validThemes gdf tc)))
            gk gdf tc).recall_val := by
      rw [gtm_recall, gtm_recall, htp, hexp]
    have hf1 : (calculate_gt_metrics fl gk gdf tc).f1
        = (calculate_gt_metrics
            (fl.filter (fun f => decide (pyLower (pyStrip f.category) ∈ validThemes gdf tc)))
            gk gdf tc).f1 := by
      rw [gtm_f1, gtm_f1, hprec, hrec]
    exact ⟨htp, hfp, hfn, hexp, hrel, hprec, hrec, hf1⟩

/-- Witness for C1: a concrete finding outside the graded categories is
classified `Suppressed`. -/
theorem C1_suppressed_excluded_witness :
    (classifyEntry (validThemes exDf "TC01") exKeys "TC01" exTypoFinding).2.1
      = "Suppressed" :=
  (C1_suppressed_excluded [exFinding, exTypoFinding] exKeys exDf "TC01").1
    (classifyEntry (validThemes exDf "TC01") exKeys "TC01" exTypoFinding)
    (by decide) (by decide)

/-! ## Substring and strip lemmas -/

theorem leadsB_iff (n : List Char) : ∀ h : List Char,
    leadsB n h = true ↔ ∃ t, h = n ++ t := by
  induction n with
  | nil => intro h; simp [leadsB]
  | cons a as ih =>
    intro h
    cases h with
    | nil =>
      simp [leadsB]
    | cons b bs =>
      simp only [leadsB, Bool.and_eq_true, beq_iff_eq, ih bs]
      constructor
      · rintro ⟨rfl, t, rfl⟩
        exact ⟨t, rfl⟩
      · rintro ⟨t, ht⟩
        injection ht with h1 h2
        exact ⟨h1.symm, t, h2⟩

theorem subListB_iff (n : List Char) : ∀ h : List Char,
    subListB n h = true ↔ occursIn n h := by
  intro h
  induction h with
  | nil =>
    simp only [subListB, occursIn, List.isEmpty_iff]
    constructor
    · rintro rfl
      exact ⟨[], [], rfl⟩
    · rintro ⟨pre, suf, hps⟩
      exact (List.append_eq_nil.mp (List.append_eq_nil.mp hps.symm).1).2
  | cons c t ih =>
    simp only [subListB, Bool.or_eq_true, leadsB_iff, ih, occursIn]
    constructor
    · rintro (⟨suf, hs⟩ | ⟨pre, suf, rfl⟩)
      · exact ⟨[], suf, by simpa using hs⟩
      · exact ⟨c :: pre, suf, rfl⟩
    · rintro ⟨pre, suf, hps⟩
      cases pre with
      | nil => exact Or.inl ⟨suf, by simpa using hps⟩
      | cons p ps =>
        injection hps with h1 h2
        exact Or.inr ⟨ps, suf, h2⟩

theorem pyIn_iff (needle hay : String) :
    pyIn needle hay = true ↔ occursIn needle.data hay.data :=
  subListB_iff needle.data hay.data

theorem dropWhile_self_dropWhile (p : Char → Bool) (l : List Char) :
    (l.dropWhile p).dropWhile p = l.dropWhile p := by
  induction l with
  | nil => rfl
  | cons a t ih =>
    by_cases h : p a
    · simp [List.dropWhile_cons, h, ih]
    · simp [List.dropWhile_cons, h]

theorem exists_append_dropWhile (p : Char → Bool) (l : List Char) :
    ∃ t, l = t ++ l.dropWhile p := by
  induction l with
  | nil => exact ⟨[], rfl⟩
  | cons a l ih =>
    by_cases h : p a
    · obtain ⟨t, ht⟩ := ih
      refine ⟨a :: t, ?_⟩
      rw [List.dropWhile_cons, if_pos h]
      simpa using ht
    · refine ⟨[], ?_⟩
      rw [List.dropWhile_cons, if_neg h]
      rfl

theorem length_dropWhile_le_len (p : Char → Bool) (l : List Char) :
    (l.dropWhile p).length ≤ l.length := by
  induction l with
  | nil => exact Nat.le_refl 0
  | cons a t ih =>
    rw [List.dropWhile_cons]
    split
    · exact Nat.le_succ_of_le ih
    · exact Nat.le_refl _

theorem not_head_of_dropWhile_self (p : Char → Bool) (a : Char) (rest : List Char)
    (h : List.dropWhile p (a :: rest) = a :: rest) : p a = false := by
  cases hpa : p a
  · rfl
  · rw [List.dropWhile_cons, if_pos hpa] at h
    have hle := length_dropWhile_le_len p rest
    rw [h] at hle
    simp at hle

theorem dropWhile_self_of_pre (p : Char → Bool) (y t : List Char)
    (hx : List.dropWhile p (y ++ t) = y ++ t) : List.dropWhile p y = y := by
  cases y with
  | nil => rfl
  | cons a y' =>
    have ha : p a = false := not_head_of_dropWhile_self p a (y' ++ t) (by simpa using hx)
    rw [List.dropWhile_cons, if_neg (by simp [ha])]

theorem trimChars_idem (l : List Char) : trimChars (trimChars l) = trimChars l := by
  unfold trimChars
  have hAself : (l.dropWhile Char.isWhitespace).dropWhile Char.isWhitespace
      = l.dropWhile Char.isWhitespace := dropWhile_self_dropWhile _ l
  obtain ⟨t, ht⟩ :=
    exists_append_dropWhile Char.isWhitespace (l.dropWhile Char.isWhitespace).reverse
  have hsplit : l.dropWhile Char.isWhitespace
      = ((l.dropWhile Char.isWhitespace).reverse.dropWhile Char.isWhitespace).reverse
        ++ t.reverse := by
    have := congrArg List.reverse ht
    simpa using this
  have h1 : ((l.dropWhile Char.isWhitespace).reverse.dropWhile
        Char.isWhitespace).reverse.dropWhile Char.isWhitespace
      = ((l.dropWhile Char.isWhitespace).reverse.dropWhile Char.isWhitespace).reverse := by
    apply dropWhile_self_of_pre Char.isWhitespace _ t.reverse
    rw [← hsplit]
    exact hAself
  rw [h1, List.reverse_reverse, dropWhile_self_dropWhile]

theorem pyStrip_idem (s : String) : pyStrip (pyStrip s) = pyStrip s := by
  show (⟨trimChars (⟨trimChars s.data⟩ : String).data⟩ : String) = ⟨trimChars s.data⟩
  exact congrArg String.mk (trimChars_idem s.data)

/-! ## C2 -/

/-- C2 counterexample: a finding whose first 50 lowercased characters equal
a ground-truth entry's 50-character prefix at the same test case and page
is nevertheless classified `Suppressed` (not TP) when its category is
outside the test case's graded category set. -/
theorem C2_counterexample :
    pyTake (pyLower (pyStrip exTypoFinding.sentence)) 50 = "guaranteed returns"
    ∧ (pyStrip "TC01", normalizePage exTypoFinding.page, "guaranteed returns") ∈ exKeys
    ∧ (calculate_gt_metrics [exTypoFinding] exKeys exDf "TC01").detailed_findings.map
        (fun d => d.2.1) = ["Suppressed"] :=
  ⟨by decide, by decide, by decide⟩

/-- C2 (amended): for a non-empty key set, `is_ground_truth` returns true
iff the stripped test case id, normalized page, and first 50 characters of
the lowercased stripped sentence form a member of the key set, or some key
with equal test case id and normalized page has a non-empty prefix that
occurs as a substring of the lowercased stripped candidate sentence;
moreover a finding whose first 50 lowercased characters equal such a key's
prefix at the same test case and page is classified TP, PROVIDED its
lowercased stripped category is in the test case's valid-category set. -/
theorem C2_match_predicate_amended :
    (∀ (tc : String) (p : PageInput) (s : String) (keys : List GTKey), keys ≠ [] →
      (is_ground_truth tc p s keys = true ↔
        (pyStrip tc, normalizePage p, pyTake (pyLower (pyStrip s)) 50) ∈ keys
        ∨ ∃ k ∈ keys, pyStrip tc = k.1 ∧ normalizePage p = k.2.1 ∧ k.2.2 ≠ ""
            ∧ occursIn k.2.2.data (pyLower (pyStrip s)).data))
    ∧ (∀ (fl : List Finding) (gk : List GTKey) (gdf : List GTRow) (tc : String)
        (f : Finding), f ∈ fl →
        pyLower (pyStrip f.category) ∈ validThemes gdf tc →
        (pyStrip tc, normalizePage f.page, pyTake (pyLower (pyStrip f.sentence)) 50) ∈ gk →
        (f, "TP", "Exact match")
          ∈ (calculate_gt_metrics fl gk gdf tc).detailed_findings) := by
  constructor
  · intro tc p s keys hne
    rw [is_ground_truth, if_neg hne]
    by_cases hm : (pyStrip tc, normalizePage p, pyTake (pyLower (pyStrip s)) 50) ∈ keys
    · rw [if_pos hm]
      simp [hm]
    · rw [if_neg hm]
      simp only [List.any_eq_true, Bool.and_eq_true, beq_iff_eq, Bool.not_eq_true',
        beq_eq_false_iff_ne, pyIn_iff]
      constructor
      · rintro ⟨k, hk, ⟨⟨h1, h2⟩, h3⟩, h4⟩
        exact Or.inr ⟨k, hk, h1, h2, h3, h4⟩
      · rintro (h | ⟨k, hk, h1, h2, h3, h4⟩)
        · exact absurd h hm
        · exact ⟨k, hk, ⟨⟨h1, h2⟩, h3⟩, h4⟩
  · intro fl gk gdf tc f hf hcat hkey
    rw [gtm_detailed]
    refine List.mem_map.mpr ⟨f, hf, ?_⟩
    simp only [classifyEntry]
    rw [if_pos hcat]
    have hgt : is_ground_truth tc (.pnum (normalizePage f.page)) (pyStrip f.sentence) gk
        = true := by
      rw [is_ground_truth, if_neg (List.ne_nil_of_mem hkey)]
      have hmem : (pyStrip tc, normalizePage (.pnum (normalizePage f.page)),
          pyTake (pyLower (pyStrip (pyStrip f.sentence))) 50) ∈ gk := by
        rw [pyStrip_idem]
        exact hkey
      rw [if_pos hmem]
    simp only [hgt]
    rfl

/-- Witness for C2 (amended) at concrete inputs, discharging each
hypothesis. -/
theorem C2_match_predicate_amended_witness :
    is_ground_truth "TC01" (.pnum 1) "Guaranteed returns" exKeys = true
    ∧ (exFinding, "TP", "Exact match")
        ∈ (calculate_gt_metrics [exFinding] exKeys exDf "TC01").detailed_findings :=
  ⟨(C2_match_predicate_amended.1 "TC01" (.pnum 1) "Guaranteed returns" exKeys
      (by decide)).mpr (Or.inl (by decide)),
   C2_match_predicate_amended.2 [exFinding] exKeys exDf "TC01" exFinding
      (by decide) (by decide) (by decide)⟩

/-! ## C6 -/

/-- C6 counterexample: a section with no fields at all yields a record
whose `category` is `"N/A"`, not the empty string, refuting the claim that
every missing field defaults to the empty string. -/
theorem C6_counterexample :
    (extract_findings_for_review "d" exData "raw_output").map (fun r => r.category)
      = ["N/A"]
    ∧ ("N/A" : String) ≠ "" :=
  ⟨by decide, by decide⟩

/-- C6 (amended): `extract_findings_for_review` returns one record per
section of each known artifact bucket, in bucket-iteration then section
order, with the section index equal to the section's position in its
bucket's list; a missing field defaults to the empty string — EXCEPT
`category`, which defaults to `"N/A"` — and the three boolean review
flags default to `False`; bucket values that are not objects contribute no
rows instead of raising. -/
theorem C6_extraction_amended (docId : String) (data : String → BucketVal)
    (srcKey : String) :
    extract_findings_for_review docId data srcKey
      = ARTIFACT_TYPES.flatMap (fun art =>
          (bucketSections (data art)).enum.map (fun p =>
            { doc_id_m := docId, source_m := srcKey, art_key_m := art,
              section_idx_m := p.1,
              artifact_type := dropEnd art "_artifact",
              sentence := p.2.sentence.getD "",
              page := p.2.page_number.getD "",
              rule_citation := p.2.rule_citation.getD "",
              recommendations := p.2.recommendations.getD "",
              category := p.2.category.getD "N/A",
              observations := p.2.observations.getD "",
              summary := p.2.summary.getD "",
              accept := p.2.accept.getD false,
              accept_with_changes := p.2.accept_with_changes.getD false,
              reject := p.2.reject.getD false,
              reject_reason := p.2.reject_reason.getD "" })) := by
  unfold extract_findings_for_review
  congr 1
  funext art
  cases data art with
  | missing => rfl
  | nonDict => rfl
  | dict sections =>
    cases sections with
    | none => rfl
    | some s => rfl

/-! ## C7 -/

theorem updateOneUpsert_absorb {α : Type} (p : α → Bool) (a b : α)
    (ha : p a = true) (l : List α) :
    updateOneUpsert p (fun _ => b) b (updateOneUpsert p (fun _ => a) a l)
      = updateOneUpsert p (fun _ => b) b l := by
  induction l with
  | nil =>
    show updateOneUpsert p (fun _ => b) b [a] = [b]
    rw [updateOneUpsert, if_pos ha]
  | cons x t ih =>
    by_cases hx : p x = true
    · rw [updateOneUpsert, if_pos hx]
      rw [updateOneUpsert, if_pos ha]
      rw [updateOneUpsert, if_pos hx]
    · rw [updateOneUpsert, if_neg hx]
      rw [updateOneUpsert, if_neg hx]
      rw [updateOneUpsert, if_neg hx, ih]

theorem countP_updateOneUpsert {α : Type} (p : α → Bool) (a : α)
    (ha : p a = true) (l : List α) (hl : l.countP p ≤ 1) :
    (updateOneUpsert p (fun _ => a) a l).countP p = 1 := by
  induction l with
  | nil => simp [updateOneUpsert, List.countP_cons, ha]
  | cons x t ih =>
    rw [List.countP_cons] at hl
    by_cases hx : p x = true
    · rw [if_pos hx] at hl
      rw [updateOneUpsert, if_pos hx, List.countP_cons, if_pos ha]
      omega
    · rw [if_neg hx] at hl
      rw [updateOneUpsert, if_neg hx, List.countP_cons, if_neg hx]
      rw [ih (by omega)]

theorem countP_deleteOne {α : Type} (p : α → Bool) (l : List α)
    (h : l.countP p = 1) : (deleteOne p l).countP p = 0 := by
  induction l with
  | nil => simp at h
  | cons x t ih =>
    rw [List.countP_cons] at h
    by_cases hx : p x = true
    · rw [if_pos hx] at h
      rw [deleteOne, if_pos hx]
      omega
    · rw [if_neg hx] at h
      rw [deleteOne, if_neg hx, List.countP_cons, if_neg hx]
      rw [ih (by omega)]

/-- C7: soft-deleting the same identity twice equals soft-deleting it once
(the second call only refreshes the metadata); on a store holding at most
one tombstone per identity the result holds exactly one tombstone for that
identity; and `undo_soft_delete` then removes it, so the identity is no
longer among `load_deletion_keys`. -/
theorem C7_soft_delete_idempotent_undo (store : List DeletionRec)
    (doc src art : String) (idx : Nat) (c1 b1 s1 : String) (t1 : Nat)
    (c2 b2 s2 : String) (t2 : Nat)
    (hwf : store.countP (fun d => delKey d == (doc, src, art, idx)) ≤ 1) :
    soft_delete_finding (soft_delete_finding store doc src art idx c1 b1 s1 t1)
        doc src art idx c2 b2 s2 t2
      = soft_delete_finding store doc src art idx c2 b2 s2 t2
    ∧ (soft_delete_finding (soft_delete_finding store doc src art idx c1 b1 s1 t1)
        doc src art idx c2 b2 s2 t2).countP
          (fun d => delKey d == (doc, src, art, idx)) = 1
    ∧ (doc, src, art, idx) ∉ load_deletion_keys
        (undo_soft_delete
          (soft_delete_finding (soft_delete_finding store doc src art idx c1 b1 s1 t1)
            doc src art idx c2 b2 s2 t2)
          doc src art idx) := by
  have ha1 : (fun d => delKey d == (doc, src, art, idx))
      ({ doc_id := doc, source := src, art_key := art, section_idx := idx,
         category := c1, sub_bucket := b1, sentence_preview := pyTake s1 120,
         deleted_at := t1 } : DeletionRec) = true := by
    simp [delKey]
  have ha2 : (fun d => delKey d == (doc, src, art, idx))
      ({ doc_id := doc, source := src, art_key := art, section_idx := idx,
         category := c2, sub_bucket := b2, sentence_preview := pyTake s2 120,
         deleted_at := t2 } : DeletionRec) = true := by
    simp [delKey]
  have habsorb : soft_delete_finding
      (soft_delete_finding store doc src art idx c1 b1 s1 t1)
      doc src art idx c2 b2 s2 t2
      = soft_delete_finding store doc src art idx c2 b2 s2 t2 := by
    unfold soft_delete_finding
    exact updateOneUpsert_absorb (fun d => delKey d == (doc, src, art, idx))
      { doc_id := doc, source := src, art_key := art, section_idx := idx,
        category := c1, sub_bucket := b1, sentence_preview := pyTake s1 120,
        deleted_at := t1 }
      { doc_id := doc, source := src, art_key := art, section_idx := idx,
        category := c2, sub_bucket := b2, sentence_preview := pyTake s2 120,
        deleted_at := t2 } ha1 store
  have hcount : (soft_delete_finding (soft_delete_finding store doc src art idx c1 b1 s1 t1)
      doc src art idx c2 b2 s2 t2).countP
        (fun d => delKey d == (doc, src, art, idx)) = 1 := by
    rw [habsorb]
    unfold soft_delete_finding
    exact countP_updateOneUpsert (fun d => delKey d == (doc, src, art, idx))
      { doc_id := doc, source := src, art_key := art, section_idx := idx,
        category := c2, sub_bucket := b2, sentence_preview := pyTake s2 120,
        deleted_at := t2 } ha2 store hwf
  refine ⟨habsorb, hcount, ?_⟩
  intro hmem
  obtain ⟨d, hd, hdk⟩ := List.mem_map.mp hmem
  have hpd : (fun d => delKey d == (doc, src, art, idx)) d = true := by
    simp [hdk]
  have hpos : 0 < (undo_soft_delete
      (soft_delete_finding (soft_delete_finding store doc src art idx c1 b1 s1 t1)
        doc src art idx c2 b2 s2 t2) doc src art idx).countP
        (fun d => delKey d == (doc, src, art, idx)) :=
    List.countP_pos_iff.mpr ⟨d, hd, hpd⟩
  have hzero : (undo_soft_delete
      (soft_delete_finding (soft_delete_finding store doc src art idx c1 b1 s1 t1)
        doc src art idx c2 b2 s2 t2) doc src art idx).countP
        (fun d => delKey d == (doc, src, art, idx)) = 0 := by
    unfold undo_soft_delete
    exact countP_deleteOne _ _ hcount
  omega

/-- Witness for C7 at a concrete store and identity, discharging the
well-formedness hypothesis. -/
theorem C7_soft_delete_idempotent_undo_witness :
    ("d1", "raw_output", "misleading_artifact", (0 : Nat)) ∉ load_deletion_keys
        (undo_soft_delete
          (soft_delete_finding
            (soft_delete_finding [] "d1" "raw_output" "misleading_artifact" 0 "c" "b" "s" 1)
            "d1" "raw_output" "misleading_artifact" 0 "c2" "b2" "s2" 2)
          "d1" "raw_output" "misleading_artifact" 0) :=
  (C7_soft_delete_idempotent_undo [] "d1" "raw_output" "misleading_artifact" 0
    "c" "b" "s" 1 "c2" "b2" "s2" 2 (by decide)).2.2

/-! ## C8 -/

theorem lockedCats_spec (statuses : List StatusDoc) (c : String)
    (hc : c ∈ lockedCats statuses) :
    ∃ d, get_category_statuses statuses c = some d ∧ d.status = "locked" := by
  unfold lockedCats at hc
  obtain ⟨_, hpred⟩ := List.mem_filter.mp hc
  rcases hg : get_category_statuses statuses c with _ | d
  · rw [hg] at hpred
    simp at hpred
  · rw [hg] at hpred
    exact ⟨d, rfl, by simpa using hpred⟩

/-- C8: every row of the golden CSV export has a current category status
record saying `locked`, and its identity tuple is not among the
soft-deletion keys; unlocked categories and soft-deleted findings never
appear in the export. -/
theorem C8_export_locked_not_deleted (rows : List CurRow) (dk : List FindingKey)
    (statuses : List StatusDoc) (r : CurRow)
    (hr : r ∈ goldenExportRows rows dk statuses) :
    (∃ d, get_category_statuses statuses r.category = some d ∧ d.status = "locked")
    ∧ curKey r ∉ dk := by
  simp only [goldenExportRows] at hr
  by_cases hlc : lockedCats statuses = []
  · rw [if_pos hlc] at hr
    exact absurd hr (List.not_mem_nil r)
  · rw [if_neg hlc] at hr
    obtain ⟨hr1, hcat⟩ := List.mem_filter.mp hr
    obtain ⟨hr2, _⟩ := List.mem_filter.mp hr1
    refine ⟨lockedCats_spec statuses r.category (by simpa using hcat), ?_⟩
    by_cases hdk : dk = []
    · subst hdk
      exact List.not_mem_nil _
    · rw [if_neg hdk] at hr2
      obtain ⟨_, hmask⟩ := List.mem_filter.mp hr2
      simp only [Bool.not_eq_true', decide_eq_false_iff_not] at hmask
      exact hmask

/-- Witness for C8 at a concrete export, discharging the membership
hypothesis. -/
theorem C8_export_locked_not_deleted_witness :
    (∃ d, get_category_statuses [exStatusDoc] exCurRow.category = some d
      ∧ d.status = "locked")
    ∧ curKey exCurRow ∉ ([] : List FindingKey) :=
  C8_export_locked_not_deleted [exCurRow] [] [exStatusDoc] exCurRow (by decide)

/-! ## C9 -/

theorem lookup_none_of_countP_zero (store : List StatusDoc) (cat : String)
    (h : store.countP (fun d => d.category == cat) = 0) :
    get_category_statuses store cat = none := by
  induction store with
  | nil => rfl
  | cons x t ih =>
    rw [List.countP_cons] at h
    cases hb : (x.category == cat) with
    | true =>
      rw [hb] at h
      simp at h
    | false =>
      rw [hb] at h
      rw [if_neg (by simp : ¬(false = true))] at h
      have ht := ih (by omega)
      simp only [get_category_statuses, ht, hb]
      rfl

/-- C9: `lock_category(category, N, M)` stores a status record with status
`locked`, `findings_before = N`, `findings_after = M`, and
`deletions = N − M`; a subsequent `unlock_category` rewrites only the
status and the unlock timestamp, leaving `findings_before`,
`findings_after`, and `deletions` (and `locked_at`) unchanged. -/
theorem C9_lock_unlock (store : List StatusDoc) (cat : String) (N M : Int)
    (t1 t2 : Nat)
    (hwf : store.countP (fun d => d.category == cat) ≤ 1) :
    ∃ d1 : StatusDoc,
      get_category_statuses (lock_category store cat N M t1) cat = some d1
      ∧ d1.category = cat ∧ d1.status = "locked" ∧ d1.locked_at = some t1
      ∧ d1.findings_before = N ∧ d1.findings_after = M ∧ d1.deletions = N - M
      ∧ get_category_statuses (unlock_category (lock_category store cat N M t1) cat t2) cat
          = some { d1 with status := "unlocked", unlocked_at := some t2 } := by
  induction store with
  | nil =>
    refine ⟨{ category := cat, status := "locked", locked_at := some t1,
               unlocked_at := none, findings_before := N, findings_after := M,
               deletions := N - M }, ?_, rfl, rfl, rfl, rfl, rfl, rfl, ?_⟩
    · simp [lock_category, updateOneUpsert, get_category_statuses]
    · simp [lock_category, unlock_category, updateOneUpsert, updateOneNoUpsert,
        get_category_statuses]
  | cons x t ih =>
    rw [List.countP_cons] at hwf
    by_cases hx : (x.category == cat) = true
    · rw [if_pos hx] at hwf
      have ht0 : t.countP (fun d => d.category == cat) = 0 := by omega
      refine ⟨{ x with category := cat, status := "locked", locked_at := some t1, findings_before := N, findings_after := M, deletions := N - M }, ?_, rfl, rfl, rfl, rfl, rfl, rfl, ?_⟩
      · show get_category_statuses (updateOneUpsert _ _ _ (x :: t)) cat = _
        rw [updateOneUpsert, if_pos hx]
        simp only [get_category_statuses, lookup_none_of_countP_zero t cat ht0]
        simp
      · show get_category_statuses (unlock_category (updateOneUpsert _ _ _ (x :: t)) cat t2)
            cat = _
        rw [updateOneUpsert, if_pos hx]
        simp only [unlock_category, updateOneNoUpsert]
        rw [if_pos (by simp)]
        simp only [get_category_statuses, lookup_none_of_countP_zero t cat ht0]
        simp
    · have hx' : (x.category == cat) = false := by
        cases hb : (x.category == cat)
        · rfl
        · exact absurd hb hx
      rw [if_neg hx] at hwf
      obtain ⟨d1, h1, hcat', hst, hlk, hb', haf, hdel, h2⟩ := ih (by omega)
      refine ⟨d1, ?_, hcat', hst, hlk, hb', haf, hdel, ?_⟩
      · show get_category_statuses (updateOneUpsert _ _ _ (x :: t)) cat = some d1
        rw [updateOneUpsert, if_neg hx]
        simp only [get_category_statuses]
        rw [show updateOneUpsert (fun d => d.category == cat)
            (fun d => { d with
              category := cat, status := "locked", locked_at := some t1,
              findings_before := N, findings_after := M, deletions := N - M })
            { category := cat, status := "locked", locked_at := some t1,
              unlocked_at := none, findings_before := N, findings_after := M,
              deletions := N - M } t = lock_category t cat N M t1 from rfl, h1]
      · show get_category_statuses
            (unlock_category (updateOneUpsert _ _ _ (x :: t)) cat t2) cat = _
        rw [updateOneUpsert, if_neg hx]
        simp only [unlock_category, updateOneNoUpsert]
        rw [if_neg (by simp [hx'])]
        simp only [get_category_statuses]
        rw [show updateOneNoUpsert (fun d => d.category == cat)
            (fun d => { d with status := "unlocked", unlocked_at := some t2 })
            (updateOneUpsert (fun d => d.category == cat)
              (fun d => { d with
                category := cat, status := "locked", locked_at := some t1,
                findings_before := N, findings_after := M, deletions := N - M })
              { category := cat, status := "locked", locked_at := some t1,
                unlocked_at := none, findings_before := N, findings_after := M,
                deletions := N - M } t)
            = unlock_category (lock_category t cat N M t1) cat t2 from rfl, h2]

/-- Witness for C9 at a concrete store, discharging the well-formedness
hypothesis. -/
theorem C9_lock_unlock_witness :
    ∃ d1 : StatusDoc,
      get_category_statuses (lock_category [] "Misleading" 3 2 0) "Misleading" = some d1
      ∧ d1.category = "Misleading" ∧ d1.status = "locked" ∧ d1.locked_at = some 0
      ∧ d1.findings_before = 3 ∧ d1.findings_after = 2 ∧ d1.deletions = 3 - 2
      ∧ get_category_statuses
          (unlock_category (lock_category [] "Misleading" 3 2 0) "Misleading" 1) "Misleading"
          = some { d1 with status := "unlocked", unlocked_at := some 1 } :=
  C9_lock_unlock [] "Misleading" 3 2 0 1 (by decide)

end PO2
